import Mathlib

/-!
Verification of the gradient-pills rendering pipeline.

The development shallowly embeds the shader math library (`shaderUtils.js`:
`bsplineBasis`, `bsplineGradient`, `hash`, `calcWaveOffset`), the per-pixel
compositing graph built in the `PostFX` constructor, the per-frame pass
orchestration of `PostFX.render` / `PostFX.renderAsync`, and the
`GlowPlane` / `Pill` mesh-placement state.

Scalar shader arithmetic is modelled over `ℚ` where the source is pure
rational arithmetic (the spline library, mesh positions) and over `ℝ`
where the source uses transcendental functions (`sin` / `cos` in the wave
offset and the screen-noise hash).  TSL `select(c, a, b)` is an
if-then-else, `clamp(x, lo, hi)` is `min (max x lo) hi`, and `fract` is
`Int.fract`.
-/

/-- Component triple modelling a TSL `vec3` value. -/
structure V3 (α : Type) where
  x : α
  y : α
  z : α
deriving DecidableEq

/-- Componentwise scaling of a `vec3` by a scalar, as TSL `mul(v, s)`. -/
def V3.scale {α : Type} [Mul α] (v : V3 α) (s : α) : V3 α :=
  ⟨v.x * s, v.y * s, v.z * s⟩

/-- Componentwise sum of two `vec3` values, as TSL `add(u, v)`. -/
def V3.addV {α : Type} [Add α] (u v : V3 α) : V3 α :=
  ⟨u.x + v.x, u.y + v.y, u.z + v.z⟩

/-- Componentwise difference of two `vec3` values, as TSL `sub(u, v)`. -/
def V3.subV {α : Type} [Sub α] (u v : V3 α) : V3 α :=
  ⟨u.x - v.x, u.y - v.y, u.z - v.z⟩

/-- Subtracting a scalar from every component, as TSL `sub(v, s)`. -/
def V3.subScalar {α : Type} [Sub α] (v : V3 α) (s : α) : V3 α :=
  ⟨v.x - s, v.y - s, v.z - s⟩

/-- TSL `clamp(x, lo, hi)` on scalars. -/
def clampScalar (x lo hi : ℚ) : ℚ := min (max x lo) hi

/-- The cubic uniform B-spline basis blend of four control colors,
transcribed from `bsplineBasis` in `shaderUtils.js`. -/
def bsplineBasis (t : ℚ) (p0 p1 p2 p3 : V3 ℚ) : V3 ℚ :=
  let t2 := t * t
  let t3 := t2 * t
  let w0 := (t3 * (-1) + t2 * 3 - t * 3 + 1) / 6
  let w1 := (t3 * 3 - t2 * 6 + 4) / 6
  let w2 := (t3 * (-3) + t2 * 3 + t * 3 + 1) / 6
  let w3 := t3 / 6
  let r := w0 * p0.x + w1 * p1.x + w2 * p2.x + w3 * p3.x
  let g := w0 * p0.y + w1 * p1.y + w2 * p2.y + w3 * p3.y
  let b := w0 * p0.z + w1 * p1.z + w2 * p2.z + w3 * p3.z
  ⟨r, g, b⟩

/-- Local parameter of the first spline segment, from line 33 of
`shaderUtils.js`: `(tClamped - s1) / (s2 - s1)`. -/
def localT1 (tClamped s1 s2 : ℚ) : ℚ := (tClamped - s1) / (s2 - s1)

/-- Local parameter of the second spline segment: `(tClamped - s2) / (s3 - s2)`. -/
def localT2 (tClamped s2 s3 : ℚ) : ℚ := (tClamped - s2) / (s3 - s2)

/-- Local parameter of the third spline segment: `(tClamped - s3) / (s4 - s3)`. -/
def localT3 (tClamped s3 s4 : ℚ) : ℚ := (tClamped - s3) / (s4 - s3)

/-- Piecewise B-spline gradient over four colors and four stops, transcribed
from `bsplineGradient` in `shaderUtils.js`. -/
def bsplineGradient (t : ℚ) (c1 c2 c3 c4 : V3 ℚ) (s1 s2 s3 s4 : ℚ) : V3 ℚ :=
  let tClamped := clampScalar t s1 s4
  let seg1 := bsplineBasis (localT1 tClamped s1 s2) c1 c1 c2 c3
  let seg2 := bsplineBasis (localT2 tClamped s2 s3) c1 c2 c3 c4
  let seg3 := bsplineBasis (localT3 tClamped s3 s4) c2 c3 c4 c4
  if tClamped < s2 then seg1 else if tClamped < s3 then seg2 else seg3

/-- Spec-side weight `w0 = (−t³+3t²−3t+1)/6`. -/
def w0Spec (t : ℚ) : ℚ := (-(t ^ 3) + 3 * t ^ 2 - 3 * t + 1) / 6

/-- Spec-side weight `w1 = (3t³−6t²+4)/6`. -/
def w1Spec (t : ℚ) : ℚ := (3 * t ^ 3 - 6 * t ^ 2 + 4) / 6

/-- Spec-side weight `w2 = (−3t³+3t²+3t+1)/6`. -/
def w2Spec (t : ℚ) : ℚ := (-(3 * t ^ 3) + 3 * t ^ 2 + 3 * t + 1) / 6

/-- Spec-side weight `w3 = t³/6`. -/
def w3Spec (t : ℚ) : ℚ := t ^ 3 / 6

/-- C2: for every scalar `t` and control points `p0..p3`, `bsplineBasis`
returns the weighted sum `Σ wᵢ·pᵢ` with exactly the cubic uniform B-spline
weights `w0=(−t³+3t²−3t+1)/6`, `w1=(3t³−6t²+4)/6`, `w2=(−3t³+3t²+3t+1)/6`,
`w3=t³/6`, each color channel computed independently. -/
theorem bsplineBasis_is_weighted_sum (t : ℚ) (p0 p1 p2 p3 : V3 ℚ) :
    bsplineBasis t p0 p1 p2 p3 =
      ⟨w0Spec t * p0.x + w1Spec t * p1.x + w2Spec t * p2.x + w3Spec t * p3.x,
       w0Spec t * p0.y + w1Spec t * p1.y + w2Spec t * p2.y + w3Spec t * p3.y,
       w0Spec t * p0.z + w1Spec t * p1.z + w2Spec t * p2.z + w3Spec t * p3.z⟩ := by
  simp only [bsplineBasis, w0Spec, w1Spec, w2Spec, w3Spec, V3.mk.injEq]
  refine ⟨by ring, by ring, by ring⟩

/-- C1: for strictly increasing stops, `bsplineGradient` clamps `t` into
`[s1, s4]`; it selects segment 1 when the clamped `t < s2`, segment 2 when
`s2 ≤` clamped `t < s3`, and segment 3 otherwise; each segment re-normalizes
`t` to `(t − segStart)/(segEnd − segStart)` over its stop interval and
evaluates the basis with control points `(c1,c1,c2,c3)`, `(c1,c2,c3,c4)`,
`(c2,c3,c4,c4)` respectively. -/
theorem bsplineGradient_segment_selection (t : ℚ) (c1 c2 c3 c4 : V3 ℚ)
    (s1 s2 s3 s4 : ℚ) (h12 : s1 < s2) (h23 : s2 < s3) (h34 : s3 < s4) :
    s1 ≤ clampScalar t s1 s4 ∧ clampScalar t s1 s4 ≤ s4 ∧
    (clampScalar t s1 s4 < s2 →
      bsplineGradient t c1 c2 c3 c4 s1 s2 s3 s4 =
        bsplineBasis ((clampScalar t s1 s4 - s1) / (s2 - s1)) c1 c1 c2 c3) ∧
    (s2 ≤ clampScalar t s1 s4 → clampScalar t s1 s4 < s3 →
      bsplineGradient t c1 c2 c3 c4 s1 s2 s3 s4 =
        bsplineBasis ((clampScalar t s1 s4 - s2) / (s3 - s2)) c1 c2 c3 c4) ∧
    (s3 ≤ clampScalar t s1 s4 →
      bsplineGradient t c1 c2 c3 c4 s1 s2 s3 s4 =
        bsplineBasis ((clampScalar t s1 s4 - s3) / (s4 - s3)) c2 c3 c4 c4) := by
  have hle : s1 ≤ s4 := le_of_lt (lt_trans (lt_trans h12 h23) h34)
  refine ⟨?_, ?_, ?_, ?_, ?_⟩
  · exact le_min (le_max_right t s1) hle
  · exact min_le_right _ _
  · intro h
    simp only [bsplineGradient, localT1]
    rw [if_pos h]
  · intro h2 h3
    simp only [bsplineGradient, localT2]
    rw [if_neg (not_lt.mpr h2), if_pos h3]
  · intro h3
    simp only [bsplineGradient, localT3]
    rw [if_neg (not_lt.mpr (le_trans (le_of_lt h23) h3)),
        if_neg (not_lt.mpr h3)]

/-- Witness for C1: the segment-selection theorem applied at `t = 0.2`,
colors red/green/blue/white and stops `0.1 < 0.35 < 0.65 < 0.9`. -/
theorem bsplineGradient_segment_selection_witness :
    (0.1 : ℚ) ≤ clampScalar 0.2 0.1 0.9 ∧ clampScalar 0.2 0.1 0.9 ≤ 0.9 ∧
    (clampScalar 0.2 0.1 0.9 < 0.35 →
      bsplineGradient 0.2 ⟨1, 0, 0⟩ ⟨0, 1, 0⟩ ⟨0, 0, 1⟩ ⟨1, 1, 1⟩ 0.1 0.35 0.65 0.9 =
        bsplineBasis ((clampScalar 0.2 0.1 0.9 - 0.1) / (0.35 - 0.1))
          ⟨1, 0, 0⟩ ⟨1, 0, 0⟩ ⟨0, 1, 0⟩ ⟨0, 0, 1⟩) ∧
    (0.35 ≤ clampScalar 0.2 0.1 0.9 → clampScalar 0.2 0.1 0.9 < 0.65 →
      bsplineGradient 0.2 ⟨1, 0, 0⟩ ⟨0, 1, 0⟩ ⟨0, 0, 1⟩ ⟨1, 1, 1⟩ 0.1 0.35 0.65 0.9 =
        bsplineBasis ((clampScalar 0.2 0.1 0.9 - 0.35) / (0.65 - 0.35))
          ⟨1, 0, 0⟩ ⟨0, 1, 0⟩ ⟨0, 0, 1⟩ ⟨1, 1, 1⟩) ∧
    (0.65 ≤ clampScalar 0.2 0.1 0.9 →
      bsplineGradient 0.2 ⟨1, 0, 0⟩ ⟨0, 1, 0⟩ ⟨0, 0, 1⟩ ⟨1, 1, 1⟩ 0.1 0.35 0.65 0.9 =
        bsplineBasis ((clampScalar 0.2 0.1 0.9 - 0.65) / (0.9 - 0.65))
          ⟨0, 1, 0⟩ ⟨0, 0, 1⟩ ⟨1, 1, 1⟩ ⟨1, 1, 1⟩) :=
  bsplineGradient_segment_selection 0.2 ⟨1, 0, 0⟩ ⟨0, 1, 0⟩ ⟨0, 0, 1⟩ ⟨1, 1, 1⟩
    0.1 0.35 0.65 0.9 (by norm_num) (by norm_num) (by norm_num)

/-- Shifting the control window by one is invisible at the seam: the basis
at local parameter `1` over `(p0,p1,p2,p3)` equals the basis at local
parameter `0` over `(p1,p2,p3,q)` for any `q` — both give `(p1+4p2+p3)/6`. -/
theorem bsplineBasis_seam (p0 p1 p2 p3 q : V3 ℚ) :
    bsplineBasis 1 p0 p1 p2 p3 = bsplineBasis 0 p1 p2 p3 q := by
  simp only [bsplineBasis, V3.mk.injEq]
  refine ⟨by ring, by ring, by ring⟩

/-- C5: for every choice of four colors and strictly increasing stops,
`bsplineGradient` is continuous across segment boundaries — segment 1 at
`t = s2` (local parameter `1`) and segment 2 at `t = s2` (local parameter
`0`) differ by less than `1e-4` per channel, and likewise segments 2 and 3
at `s3`.  Over exact arithmetic the difference is in fact `0`. -/
theorem bsplineGradient_boundary_continuity (c1 c2 c3 c4 : V3 ℚ)
    (s1 s2 s3 s4 : ℚ) (h12 : s1 < s2) (h23 : s2 < s3) (h34 : s3 < s4) :
    (|(bsplineBasis (localT1 s2 s1 s2) c1 c1 c2 c3).x -
        (bsplineBasis (localT2 s2 s2 s3) c1 c2 c3 c4).x| < 1 / 10000 ∧
     |(bsplineBasis (localT1 s2 s1 s2) c1 c1 c2 c3).y -
        (bsplineBasis (localT2 s2 s2 s3) c1 c2 c3 c4).y| < 1 / 10000 ∧
     |(bsplineBasis (localT1 s2 s1 s2) c1 c1 c2 c3).z -
        (bsplineBasis (localT2 s2 s2 s3) c1 c2 c3 c4).z| < 1 / 10000) ∧
    (|(bsplineBasis (localT2 s3 s2 s3) c1 c2 c3 c4).x -
        (bsplineBasis (localT3 s3 s3 s4) c2 c3 c4 c4).x| < 1 / 10000 ∧
     |(bsplineBasis (localT2 s3 s2 s3) c1 c2 c3 c4).y -
        (bsplineBasis (localT3 s3 s3 s4) c2 c3 c4 c4).y| < 1 / 10000 ∧
     |(bsplineBasis (localT2 s3 s2 s3) c1 c2 c3 c4).z -
        (bsplineBasis (localT3 s3 s3 s4) c2 c3 c4 c4).z| < 1 / 10000) := by
  have e1 : localT1 s2 s1 s2 = 1 := by
    simp only [localT1]
    exact div_self (sub_ne_zero.mpr (ne_of_gt h12))
  have e2 : localT2 s2 s2 s3 = 0 := by
    simp only [localT2, sub_self, zero_div]
  have e3 : localT2 s3 s2 s3 = 1 := by
    simp only [localT2]
    exact div_self (sub_ne_zero.mpr (ne_of_gt h23))
  have e4 : localT3 s3 s3 s4 = 0 := by
    simp only [localT3, sub_self, zero_div]
  rw [e1, e2, e3, e4, bsplineBasis_seam c1 c1 c2 c3 c4,
      bsplineBasis_seam c1 c2 c3 c4 c4]
  norm_num

/-- Witness for C5: boundary continuity at stops `0.1 < 0.35 < 0.65 < 0.9`
with colors red/green/blue/white. -/
theorem bsplineGradient_boundary_continuity_witness :
    (|(bsplineBasis (localT1 0.35 0.1 0.35) ⟨1, 0, 0⟩ ⟨1, 0, 0⟩ ⟨0, 1, 0⟩ ⟨0, 0, 1⟩).x -
        (bsplineBasis (localT2 0.35 0.35 0.65) ⟨1, 0, 0⟩ ⟨0, 1, 0⟩ ⟨0, 0, 1⟩ ⟨1, 1, 1⟩).x| <
        (1 : ℚ) / 10000 ∧
     |(bsplineBasis (localT1 0.35 0.1 0.35) ⟨1, 0, 0⟩ ⟨1, 0, 0⟩ ⟨0, 1, 0⟩ ⟨0, 0, 1⟩).y -
        (bsplineBasis (localT2 0.35 0.35 0.65) ⟨1, 0, 0⟩ ⟨0, 1, 0⟩ ⟨0, 0, 1⟩ ⟨1, 1, 1⟩).y| <
        (1 : ℚ) / 10000 ∧
     |(bsplineBasis (localT1 0.35 0.1 0.35) ⟨1, 0, 0⟩ ⟨1, 0, 0⟩ ⟨0, 1, 0⟩ ⟨0, 0, 1⟩).z -
        (bsplineBasis (localT2 0.35 0.35 0.65) ⟨1, 0, 0⟩ ⟨0, 1, 0⟩ ⟨0, 0, 1⟩ ⟨1, 1, 1⟩).z| <
        (1 : ℚ) / 10000) ∧
    (|(bsplineBasis (localT2 0.65 0.35 0.65) ⟨1, 0, 0⟩ ⟨0, 1, 0⟩ ⟨0, 0, 1⟩ ⟨1, 1, 1⟩).x -
        (bsplineBasis (localT3 0.65 0.65 0.9) ⟨0, 1, 0⟩ ⟨0, 0, 1⟩ ⟨1, 1, 1⟩ ⟨1, 1, 1⟩).x| <
        (1 : ℚ) / 10000 ∧
     |(bsplineBasis (localT2 0.65 0.35 0.65) ⟨1, 0, 0⟩ ⟨0, 1, 0⟩ ⟨0, 0, 1⟩ ⟨1, 1, 1⟩).y -
        (bsplineBasis (localT3 0.65 0.65 0.9) ⟨0, 1, 0⟩ ⟨0, 0, 1⟩ ⟨1, 1, 1⟩ ⟨1, 1, 1⟩).y| <
        (1 : ℚ) / 10000 ∧
     |(bsplineBasis (localT2 0.65 0.35 0.65) ⟨1, 0, 0⟩ ⟨0, 1, 0⟩ ⟨0, 0, 1⟩ ⟨1, 1, 1⟩).z -
        (bsplineBasis (localT3 0.65 0.65 0.9) ⟨0, 1, 0⟩ ⟨0, 0, 1⟩ ⟨1, 1, 1⟩ ⟨1, 1, 1⟩).z| <
        (1 : ℚ) / 10000) :=
  bsplineGradient_boundary_continuity ⟨1, 0, 0⟩ ⟨0, 1, 0⟩ ⟨0, 0, 1⟩ ⟨1, 1, 1⟩
    0.1 0.35 0.65 0.9 (by norm_num) (by norm_num) (by norm_num)

/-- C6: the three local renormalizations are unguarded — for the degenerate
stop configuration `s1 = s2` the divisor of the first renormalization is
zero (and the rational model collapses the quotient to `0` for every `t`);
under the precondition `s1 < s2 < s3 < s4` every divisor is nonzero and the
three divisions are genuine: multiplying each local parameter back by its
divisor recovers the numerator. -/
theorem bsplineGradient_division_safety :
    ((0.35 : ℚ) - 0.35 = 0 ∧ ∀ t : ℚ, localT1 t 0.35 0.35 = 0) ∧
    (∀ s1 s2 s3 s4 : ℚ, s1 < s2 → s2 < s3 → s3 < s4 →
      (s2 - s1 ≠ 0 ∧ s3 - s2 ≠ 0 ∧ s4 - s3 ≠ 0) ∧
      ∀ t : ℚ,
        localT1 t s1 s2 * (s2 - s1) = t - s1 ∧
        localT2 t s2 s3 * (s3 - s2) = t - s2 ∧
        localT3 t s3 s4 * (s4 - s3) = t - s3) := by
  refine ⟨⟨by norm_num, fun t => by simp [localT1]⟩, ?_⟩
  intro s1 s2 s3 s4 h12 h23 h34
  have d1 : s2 - s1 ≠ 0 := sub_ne_zero.mpr (ne_of_gt h12)
  have d2 : s3 - s2 ≠ 0 := sub_ne_zero.mpr (ne_of_gt h23)
  have d3 : s4 - s3 ≠ 0 := sub_ne_zero.mpr (ne_of_gt h34)
  refine ⟨⟨d1, d2, d3⟩, fun t => ⟨?_, ?_, ?_⟩⟩
  · simp only [localT1]
    exact div_mul_cancel₀ _ d1
  · simp only [localT2]
    exact div_mul_cancel₀ _ d2
  · simp only [localT3]
    exact div_mul_cancel₀ _ d3

/-- Witness for C6: the safe part applied at stops `0.1 < 0.35 < 0.65 < 0.9`
and `t = 0.5`, together with the degenerate part. -/
theorem bsplineGradient_division_safety_witness :
    ((0.35 : ℚ) - 0.35 = 0 ∧ localT1 0.5 0.35 0.35 = 0) ∧
    ((0.35 : ℚ) - 0.1 ≠ 0 ∧ (0.65 : ℚ) - 0.35 ≠ 0 ∧ (0.9 : ℚ) - 0.65 ≠ 0) ∧
    localT1 0.5 0.1 0.35 * (0.35 - 0.1) = 0.5 - 0.1 ∧
    localT2 0.5 0.35 0.65 * (0.65 - 0.35) = 0.5 - 0.35 ∧
    localT3 0.5 0.65 0.9 * (0.9 - 0.65) = 0.5 - 0.65 := by
  have h := bsplineGradient_division_safety
  have hs := h.2 0.1 0.35 0.65 0.9 (by norm_num) (by norm_num) (by norm_num)
  exact ⟨⟨h.1.1, h.1.2 0.5⟩, hs.1, hs.2 0.5⟩

/-- Wave deformation offset, transcribed from `calcWaveOffset` in
`shaderUtils.js`: project the world position onto an axis rotated by
`waveRotation`, scale by frequency, shift by phase, and take
`sin(phase) * amp`. -/
noncomputable def calcWaveOffset (posX posY waveRotation waveFreq wavePhase
    waveAmp : ℝ) : ℝ :=
  let cosR := Real.cos waveRotation
  let sinR := Real.sin waveRotation
  let alongPill := posY * cosR - posX * sinR
  let phase := alongPill * waveFreq + wavePhase
  Real.sin phase * waveAmp

/-- C7: for every world position and parameters, the wave-offset function
returns `amp·sin((pos.y·cos(rotation) − pos.x·sin(rotation))·freq + phase)`;
in particular, for `rotation = 0` and `phase = 0` it equals
`amp·sin(pos.y·freq)` for every position. -/
theorem calcWaveOffset_formula (posX posY rotation freq phase amp : ℝ) :
    calcWaveOffset posX posY rotation freq phase amp =
      amp * Real.sin ((posY * Real.cos rotation - posX * Real.sin rotation) *
        freq + phase) ∧
    calcWaveOffset posX posY 0 freq 0 amp = amp * Real.sin (posY * freq) := by
  constructor
  · simp only [calcWaveOffset]
    ring
  · simp only [calcWaveOffset, Real.cos_zero, Real.sin_zero, mul_one,
      mul_zero, sub_zero, add_zero]
    ring

/-- Per-pixel emissive extraction from the `PostFX` constructor:
`emissiveOnly = scenePassColor.sub(colorTexture)`. -/
def emissiveOnly (scenePassColor colorTex : V3 ℝ) : V3 ℝ :=
  scenePassColor.subV colorTex

/-- Per-pixel pre-noise composite node from the `PostFX` constructor.
`maskTexR` enters as the red channel of the mask texture sample; `edges` is
the per-pixel value of the bloom node `edgesPass`. -/
noncomputable def finalComposite (colorTex : V3 ℝ) (maskTexR : ℝ)
    (glowTex edges : V3 ℝ) (glowVis edgesVis : ℝ) : V3 ℝ :=
  let invertedMask := 1 - maskTexR
  let maskedGlow := (glowTex.scale invertedMask).scale glowVis
  let maskedEdges := (edges.scale invertedMask).scale edgesVis
  ((colorTex.scale maskTexR).addV maskedEdges).addV maskedGlow

/-- The pre-noise composite as wired in the constructor: the `edges` input
of `finalComposite` is the bloom operator applied to `emissiveOnly`.  The
bloom operator is abstracted as a per-pixel function `bloomFn`. -/
noncomputable def preNoiseComposite (bloomFn : V3 ℝ → V3 ℝ)
    (scenePassColor colorTex : V3 ℝ) (maskTexR : ℝ) (glowTex : V3 ℝ)
    (glowVis edgesVis : ℝ) : V3 ℝ :=
  finalComposite colorTex maskTexR glowTex
    (bloomFn (emissiveOnly scenePassColor colorTex)) glowVis edgesVis

/-- Static RGB sensor noise from the `PostFX` constructor: three sin/fract
hashes of the screen UV. -/
noncomputable def sensorNoise (uvx uvy : ℝ) : V3 ℝ :=
  let seed1 := uvx * 12.9898 + uvy * 78.233
  let seed2 := uvx * 93.9898 + uvy * 67.345
  let seed3 := uvx * 43.332 + uvy * 93.532
  ⟨Int.fract (Real.sin seed1 * 43758.5453),
   Int.fract (Real.sin seed2 * 43758.5453),
   Int.fract (Real.sin seed3 * 43758.5453)⟩

/-- Composite plus noise offset: `finalComposite + (noise − 0.5)·noiseStrength`. -/
noncomputable def finalWithNoise (bloomFn : V3 ℝ → V3 ℝ)
    (scenePassColor colorTex : V3 ℝ) (maskTexR : ℝ) (glowTex : V3 ℝ)
    (glowVis edgesVis noiseStrength uvx uvy : ℝ) : V3 ℝ :=
  (preNoiseComposite bloomFn scenePassColor colorTex maskTexR glowTex glowVis
    edgesVis).addV (((sensorNoise uvx uvy).subScalar 0.5).scale noiseStrength)

/-- Faded output: `finalWithNoise·opacity + black·(1 − opacity)`. -/
noncomputable def finalOutput (bloomFn : V3 ℝ → V3 ℝ)
    (scenePassColor colorTex : V3 ℝ) (maskTexR : ℝ) (glowTex : V3 ℝ)
    (glowVis edgesVis noiseStrength uvx uvy opacity : ℝ) : V3 ℝ :=
  ((finalWithNoise bloomFn scenePassColor colorTex maskTexR glowTex glowVis
    edgesVis noiseStrength uvx uvy).scale opacity).addV
    ((V3.mk (0 : ℝ) 0 0).scale (1 - opacity))

/-- Debug-view multiplexer from the `PostFX` constructor: nested TSL
`select` on the debug-view uniform (0=final, 1=mask, 2=edges, 3=color,
4=glow).  `maskTex` is the full mask texture sample, whose red channel
feeds the composite. -/
noncomputable def debugOutput (debugView : ℝ) (bloomFn : V3 ℝ → V3 ℝ)
    (scenePassColor colorTex maskTex glowTex : V3 ℝ)
    (glowVis edgesVis noiseStrength uvx uvy opacity : ℝ) : V3 ℝ :=
  if debugView < 0.5 then
    finalOutput bloomFn scenePassColor colorTex maskTex.x glowTex glowVis
      edgesVis noiseStrength uvx uvy opacity
  else if debugView < 1.5 then maskTex
  else if debugView < 2.5 then bloomFn (emissiveOnly scenePassColor colorTex)
  else if debugView < 3.5 then colorTex
  else glowTex

/-- C3: for every pixel, the pre-noise composite (the `final` view before
noise and fade) equals
`ColorTarget·MaskTarget + Bloom(emissiveOnly)·(1 − MaskTarget)·edgesVisible
+ GlowTarget·(1 − MaskTarget)·glowVisible`, where `emissiveOnly` is the
per-pixel subtraction `ScenePassColor − ColorTarget`. -/
theorem preNoiseComposite_formula (bloomFn : V3 ℝ → V3 ℝ)
    (scenePassColor colorTex : V3 ℝ) (maskTexR : ℝ) (glowTex : V3 ℝ)
    (glowVis edgesVis : ℝ) :
    preNoiseComposite bloomFn scenePassColor colorTex maskTexR glowTex
        glowVis edgesVis =
      ⟨colorTex.x * maskTexR +
          (bloomFn (scenePassColor.subV colorTex)).x * (1 - maskTexR) * edgesVis +
          glowTex.x * (1 - maskTexR) * glowVis,
       colorTex.y * maskTexR +
          (bloomFn (scenePassColor.subV colorTex)).y * (1 - maskTexR) * edgesVis +
          glowTex.y * (1 - maskTexR) * glowVis,
       colorTex.z * maskTexR +
          (bloomFn (scenePassColor.subV colorTex)).z * (1 - maskTexR) * edgesVis +
          glowTex.z * (1 - maskTexR) * glowVis⟩ := by
  simp only [preNoiseComposite, finalComposite, emissiveOnly, V3.scale,
    V3.addV, V3.mk.injEq]

/-- C8: whenever the debug-view selector is set to `mask` (value 1), the
displayed output equals the mask texture sample exactly, for every value of
the opacity, noise-strength and bloom parameters — raw-pass debug views
bypass the fade and noise stages. -/
theorem debugOutput_mask_view (bloomFn : V3 ℝ → V3 ℝ)
    (scenePassColor colorTex maskTex glowTex : V3 ℝ)
    (glowVis edgesVis noiseStrength uvx uvy opacity : ℝ) :
    debugOutput 1 bloomFn scenePassColor colorTex maskTex glowTex glowVis
      edgesVis noiseStrength uvx uvy opacity = maskTex := by
  simp only [debugOutput]
  norm_num

/-- Mutable per-pill state touched by the orchestrator: the `edgeGlow`
uniform and the mesh visibility flag. -/
structure PillState where
  edgeGlow : ℚ
  visible : Bool
deriving DecidableEq

/-- The three offscreen render targets of `PostFX`. -/
inductive RTarget where
  | colorT
  | maskT
  | glowT
deriving DecidableEq

/-- Scene-side state threaded through a frame: the pills, the glow-plane
visibility flags, whether the constant-white override material is set on
the scene, and the renderer's bound render target (`none` = screen). -/
structure SceneState where
  pills : List PillState
  glowsVisible : List Bool
  whiteOverride : Bool
  target : Option RTarget
deriving DecidableEq

/-- Render submissions recorded during a frame, each capturing the scene
state at submission time.  `submit` is a `renderer.render(scene, camera)`
call; `postProcess` is the `postProcessing.render()` call whose internal
scene pass feeds emissive extraction. -/
inductive RenderEvent where
  | submit (target : Option RTarget) (pills : List PillState)
      (glows : List Bool) (override : Bool)
  | postProcess (pills : List PillState) (glows : List Bool) (override : Bool)
deriving DecidableEq

/-- Per-frame orchestration, transcribed statement by statement from
`PostFX.render` (PostFX.js lines 117–155).  Returns the final scene state
and the ordered list of render submissions. -/
def renderFrame (saved : ℚ) (s : SceneState) : SceneState × List RenderEvent :=
  let s1 : SceneState :=
    { s with glowsVisible := s.glowsVisible.map (fun _ => false) }
  let s2 : SceneState :=
    { s1 with pills := s1.pills.map (fun p => { p with edgeGlow := 0 }) }
  let s3 : SceneState := { s2 with target := some RTarget.colorT }
  let e1 := RenderEvent.submit s3.target s3.pills s3.glowsVisible s3.whiteOverride
  let s4 : SceneState := { s3 with whiteOverride := true, target := some RTarget.maskT }
  let e2 := RenderEvent.submit s4.target s4.pills s4.glowsVisible s4.whiteOverride
  let s5 : SceneState := { s4 with whiteOverride := false }
  let s6 : SceneState :=
    { s5 with pills := s5.pills.map (fun p => { p with edgeGlow := saved }) }
  let s7 : SceneState :=
    { s6 with pills := s6.pills.map (fun p => { p with visible := false }),
              glowsVisible := s6.glowsVisible.map (fun _ => true),
              target := some RTarget.glowT }
  let e3 := RenderEvent.submit s7.target s7.pills s7.glowsVisible s7.whiteOverride
  let s8 : SceneState :=
    { s7 with pills := s7.pills.map (fun p => { p with visible := true }),
              glowsVisible := s7.glowsVisible.map (fun _ => false) }
  let s9 : SceneState := { s8 with target := none }
  let e4 := RenderEvent.postProcess s9.pills s9.glowsVisible s9.whiteOverride
  let s10 : SceneState :=
    { s9 with glowsVisible := s9.glowsVisible.map (fun _ => true) }
  (s10, [e1, e2, e3, e4])

/-- Per-frame orchestration of `PostFX.renderAsync` (PostFX.js lines
157–195), transcribed statement by statement: the same operations as
`renderFrame`, with each render submission awaited in turn. -/
def renderFrameAsync (saved : ℚ) (s : SceneState) :
    SceneState × List RenderEvent :=
  let s1 : SceneState :=
    { s with glowsVisible := s.glowsVisible.map (fun _ => false) }
  let s2 : SceneState :=
    { s1 with pills := s1.pills.map (fun p => { p with edgeGlow := 0 }) }
  let s3 : SceneState := { s2 with target := some RTarget.colorT }
  let e1 := RenderEvent.submit s3.target s3.pills s3.glowsVisible s3.whiteOverride
  let s4 : SceneState := { s3 with whiteOverride := true, target := some RTarget.maskT }
  let e2 := RenderEvent.submit s4.target s4.pills s4.glowsVisible s4.whiteOverride
  let s5 : SceneState := { s4 with whiteOverride := false }
  let s6 : SceneState :=
    { s5 with pills := s5.pills.map (fun p => { p with edgeGlow := saved }) }
  let s7 : SceneState :=
    { s6 with pills := s6.pills.map (fun p => { p with visible := false }),
              glowsVisible := s6.glowsVisible.map (fun _ => true),
              target := some RTarget.glowT }
  let e3 := RenderEvent.submit s7.target s7.pills s7.glowsVisible s7.whiteOverride
  let s8 : SceneState :=
    { s7 with pills := s7.pills.map (fun p => { p with visible := true }),
              glowsVisible := s7.glowsVisible.map (fun _ => false) }
  let s9 : SceneState := { s8 with target := none }
  let e4 := RenderEvent.postProcess s9.pills s9.glowsVisible s9.whiteOverride
  let s10 : SceneState :=
    { s9 with glowsVisible := s9.glowsVisible.map (fun _ => true) }
  (s10, [e1, e2, e3, e4])

/-- C4: every frame executes the passes in the strict order — hide all glow
fields; set every pill's edge-glow uniform to `0` and render into
ColorTarget; render with the constant-white override material into
MaskTarget; restore every pill's edge-glow to the saved value; hide pills,
show glow fields and render into GlowTarget; restore pill visibility and
re-hide glow fields; then run the post-processing whose scene pass renders
with glow fields hidden.  The frame leaves the pills visible with edge-glow
`saved`, the glow planes visible, no override and the screen bound. -/
theorem renderFrame_pass_order (saved : ℚ) (ps : List PillState)
    (gs : List Bool) (tgt : Option RTarget) :
    (renderFrame saved ⟨ps, gs, false, tgt⟩).2 =
      [RenderEvent.submit (some RTarget.colorT)
          (ps.map fun p => ⟨0, p.visible⟩) (gs.map fun _ => false) false,
       RenderEvent.submit (some RTarget.maskT)
          (ps.map fun p => ⟨0, p.visible⟩) (gs.map fun _ => false) true,
       RenderEvent.submit (some RTarget.glowT)
          (ps.map fun _ => ⟨saved, false⟩) (gs.map fun _ => true) false,
       RenderEvent.postProcess
          (ps.map fun _ => ⟨saved, true⟩) (gs.map fun _ => false) false] ∧
    (renderFrame saved ⟨ps, gs, false, tgt⟩).1 =
      ⟨ps.map fun _ => ⟨saved, true⟩, gs.map fun _ => true, false, none⟩ := by
  constructor <;>
    simp [renderFrame, List.map_map, Function.comp_def]

/-- C10: the synchronous and asynchronous frame orchestrations are
equivalent — for the same saved edge-glow scalar and initial scene state,
`renderFrame` and `renderFrameAsync` record the identical sequence of
render submissions (with identical uniform values, visibility flags,
override settings and target bindings at each submission) and produce the
identical final state. -/
theorem renderFrame_async_equiv (saved : ℚ) (s : SceneState) :
    renderFrame saved s = renderFrameAsync saved s := rfl

/-- Mesh position triple (world units). -/
structure MeshPos where
  x : ℚ
  y : ℚ
  z : ℚ
deriving DecidableEq

/-- Material blending modes relevant to the glow plane: THREE's default
`NormalBlending` versus the `AdditiveBlending` the glow material selects. -/
inductive BlendMode where
  | normalBlending
  | additiveBlending
deriving DecidableEq

/-- Glow-plane state produced by the `GlowPlane` constructor
(GlowPlane.js): `transparent = true`, `blending = AdditiveBlending`,
`depthWrite = false`, and the mesh placed at `z = -0.1`. -/
structure GlowPlaneState where
  transparent : Bool
  blending : BlendMode
  depthWrite : Bool
  pos : MeshPos
deriving DecidableEq

/-- The state a fresh `GlowPlane` is constructed with. -/
def glowPlaneInit : GlowPlaneState :=
  { transparent := true
    blending := BlendMode.additiveBlending
    depthWrite := false
    pos := ⟨0, 0, -0.1⟩ }

/-- A pill together with its companion glow plane, as built by the `Pill`
constructor: the pill mesh at the THREE default position `(0,0,0)` and the
glow plane as constructed. -/
structure PillPairState where
  pillPos : MeshPos
  glowPlane : GlowPlaneState
deriving DecidableEq

/-- Pill/glow pair right after `new Pill(...)`. -/
def pillInit : PillPairState := { pillPos := ⟨0, 0, 0⟩, glowPlane := glowPlaneInit }

/-- `Pill.setPosition(x, y, z)` from the `Pill` class: it sets the pill
mesh and the glow-plane mesh to the same `(x, y, z)`; calls that omit `z`
pass the JavaScript default `z = 0`. -/
def pillSetPosition (p : PillPairState) (x y z : ℚ) : PillPairState :=
  { p with pillPos := ⟨x, y, z⟩,
           glowPlane := { p.glowPlane with pos := ⟨x, y, z⟩ } }

/-- Counterexample to C9: after `Pill.setPosition(0, 0)` (JavaScript
default `z = 0`), the glow-plane mesh sits at exactly the same `z` as the
pill mesh, so its `z` is not strictly less. -/
theorem pillSetPosition_depth_counterexample :
    ¬ ((pillSetPosition pillInit 0 0 0).glowPlane.pos.z <
        (pillSetPosition pillInit 0 0 0).pillPos.z) := by
  simp [pillSetPosition, pillInit]

/-- C9 (amended): every glow plane is created with additive blending and
depth writes disabled, and after construction its mesh `z = -0.1` is
strictly less than the pill mesh's default `z = 0`; however every
`Pill.setPosition(x, y, z)` call places the glow-plane mesh at exactly the
same `z` as the pill mesh, so after such a call the two `z` coordinates
are equal rather than strictly ordered. -/
theorem glowPlane_blend_depth_placement :
    glowPlaneInit.blending = BlendMode.additiveBlending ∧
    glowPlaneInit.depthWrite = false ∧
    glowPlaneInit.transparent = true ∧
    pillInit.glowPlane.pos.z < pillInit.pillPos.z ∧
    ∀ (p : PillPairState) (x y z : ℚ),
      (pillSetPosition p x y z).glowPlane.pos.z =
        (pillSetPosition p x y z).pillPos.z := by
  refine ⟨rfl, rfl, rfl, by norm_num [pillInit, glowPlaneInit], ?_⟩
  intro p x y z
  rfl
